import Mathlib

/-!
Shallow embedding of `packages/sdk-react/src/MetaMaskProvider.tsx`:
the React provider component (`MetaMaskProviderClient` / `MetaMaskProvider`)
that wraps a MetaMask SDK instance and republishes its connection state,
and the `SelectModal` chooser widget.

React `useState` hooks become fields of an explicit state record; every
event handler becomes a function from payload and state to state; React
effects become explicit state-transforming functions.  Values that the
code reads from the external SDK / active provider (selectedAddress,
chainId, isConnected(), isExtensionActive()) are gathered in a `ProvEnv`
record that the handlers take as input.
-/

namespace MetaMaskSDKReact

/-- Shape of the `EthereumRpcError` objects used for the `error` state field. -/
structure EthereumRpcError where
  code : Int
  message : String
deriving DecidableEq, Repr

/-- Shape of the object-shaped `chainChanged` payloads: a JS object that may
or may not carry a `chainId` field (`none` models a missing / undefined field). -/
structure ChainObj where
  chainId : Option String
deriving DecidableEq, Repr

/-- Payload of a `chainChanged` event: either a primitive (string) value or an
object-shaped value. -/
inductive ChainPayload
  | prim (v : String)
  | obj (o : ChainObj)
deriving DecidableEq, Repr

/-- What can end up stored in the `chainId` state: `setChainId` receives either
a string or, on the else-branch of `onChainChanged`, the raw object payload. -/
inductive StoredChain
  | str (v : String)
  | objVal (o : ChainObj)
deriving DecidableEq, Repr

/-- Shape of a `ServiceStatus` payload, as used by `onSDKStatusEvent`. -/
structure ServiceStatus where
  connectionStatus : String
deriving DecidableEq, Repr

/-- The `PROVIDER_UPDATE_TYPE` enum of the SDK package. -/
inductive PROVIDER_UPDATE_TYPE
  | TERMINATE
  | EXTENSION
  | INITIALIZED
deriving DecidableEq, Repr

/-- Values the component reads from the SDK and its active provider:
`getProvider().selectedAddress`, `getProvider().chainId`,
`getProvider().isConnected()` and `sdk.isExtensionActive()`.
`none` models an absent (undefined / null) value. -/
structure ProvEnv where
  selectedAddress : Option String
  chainId : Option String
  isConnected : Bool
  isExtensionActive : Bool
deriving DecidableEq, Repr

/-- JS `x || undefined` on an optional string: an empty string is falsy and
collapses to undefined, as in `activeProvider.selectedAddress || undefined`. -/
def orUndefined : Option String → Option String
  | some s => if s = "" then none else some s
  | none => none

/-- Payload of a `connect` event; the code reads
`(connectParam as \x7b chainId: string \x7d).chainId`, which may be undefined. -/
structure ConnectParam where
  chainId : Option String
deriving DecidableEq, Repr

/-- The `useState` hooks of `MetaMaskProviderClient`, gathered into a record.
The `sdk` and `provider` handles are not tracked (they are opaque objects);
everything proved here is about the remaining published fields. -/
structure SDKState where
  ready : Bool
  readOnlyCalls : Bool
  connecting : Bool
  connected : Bool
  trigger : Nat
  chainId : Option StoredChain
  balance : Option String
  account : Option String
  error : Option EthereumRpcError
  status : Option ServiceStatus
  extensionActive : Bool
deriving DecidableEq, Repr

/-- Initial values of the hooks: all booleans false, `trigger` starts at 1,
all optional fields unset. -/
def initProps : SDKState :=
  { ready := false
    readOnlyCalls := false
    connecting := false
    connected := false
    trigger := 1
    chainId := none
    balance := none
    account := none
    error := none
    status := none
    extensionActive := false }

/-- Handler `onConnecting`: setConnected(false); setConnecting(true);
setError(undefined). -/
def onConnecting (s : SDKState) : SDKState :=
  { s with connected := false, connecting := true, error := none }

/-- Handler `onInitialized`: setConnecting(false);
setAccount(activeProvider?.selectedAddress || undefined); setConnected(true);
setError(undefined). -/
def onInitialized (env : ProvEnv) (s : SDKState) : SDKState :=
  { s with connecting := false
           account := orUndefined env.selectedAddress
           connected := true
           error := none }

/-- Handler `onConnect`: setConnecting(false); setConnected(true);
setChainId(connectParam.chainId); setError(undefined). -/
def onConnect (p : ConnectParam) (s : SDKState) : SDKState :=
  { s with connecting := false
           connected := true
           chainId := p.chainId.map StoredChain.str
           error := none }

/-- Handler `onDisconnect`: setConnecting(false); setConnected(false);
setError(reason). -/
def onDisconnect (reason : EthereumRpcError) (s : SDKState) : SDKState :=
  { s with connecting := false, connected := false, error := some reason }

/-- Handler `onAccountsChanged`: setAccount(newAccounts?.[0]);
setConnected(true); setConnecting(false); setError(undefined).
The payload is `any`; `none` models a null/undefined payload and the
`[0]` access on a list is its optional head. -/
def onAccountsChanged (newAccounts : Option (List String)) (s : SDKState) : SDKState :=
  { s with account := newAccounts.bind List.head?
           connected := true
           connecting := false
           error := none }

/-- JS truthiness of the `chainId` field read in `onChainChanged`:
a missing field and an empty string are falsy. -/
def truthyChainField : Option String → Bool
  | some c => !(c == "")
  | none => false

/-- Handler `onChainChanged`: if the payload is object-shaped with a truthy
`chainId` field, setChainId(payload.chainId), else setChainId(payload);
then setConnected(true); setConnecting(false); setError(undefined). -/
def onChainChanged (v : ChainPayload) (s : SDKState) : SDKState :=
  let s1 :=
    match v with
    | ChainPayload.obj o =>
      if truthyChainField o.chainId then
        { s with chainId := o.chainId.map StoredChain.str }
      else
        { s with chainId := some (StoredChain.objVal o) }
    | ChainPayload.prim raw => { s with chainId := some (StoredChain.str raw) }
  { s1 with connected := true, connecting := false, error := none }

/-- Handler `onSDKStatusEvent`: setStatus(serviceStatus). -/
def onSDKStatusEvent (st : ServiceStatus) (s : SDKState) : SDKState :=
  { s with status := some st }

/-- Handler `onProviderEvent`: on TERMINATE, setConnecting(false); on
EXTENSION, setConnecting(false), setConnected(true), setError(undefined),
and setChainId / setAccount from the (possibly replaced) active provider,
each normalized with `|| undefined`; in every case
setTrigger(trigger + 1), which re-runs the listener-subscription effect. -/
def onProviderEvent (t : PROVIDER_UPDATE_TYPE) (env : ProvEnv) (s : SDKState) : SDKState :=
  let s1 :=
    match t with
    | PROVIDER_UPDATE_TYPE.TERMINATE => { s with connecting := false }
    | PROVIDER_UPDATE_TYPE.EXTENSION =>
      { s with connecting := false
               connected := true
               error := none
               chainId := (orUndefined env.chainId).map StoredChain.str
               account := orUndefined env.selectedAddress }
    | PROVIDER_UPDATE_TYPE.INITIALIZED => s
  { s1 with trigger := s1.trigger + 1 }

/-- The listener-subscription effect (re-run on every `trigger` / `sdk` /
`ready` change): setExtensionActive(sdk.isExtensionActive());
setConnected(activeProvider.isConnected());
setAccount(activeProvider.selectedAddress || undefined); then it
(re)attaches all provider listeners. -/
def resubscribeEffect (env : ProvEnv) (s : SDKState) : SDKState :=
  { s with extensionActive := env.isExtensionActive
           connected := env.isConnected
           account := orUndefined env.selectedAddress }

/-- Full processing of a provider-update event: the handler runs (and bumps
`trigger`), then the subscription effect re-runs against the latest active
provider. -/
def fullProviderUpdate (t : PROVIDER_UPDATE_TYPE) (env : ProvEnv) (s : SDKState) : SDKState :=
  resubscribeEffect env (onProviderEvent t env s)

/-- Outcome of the asynchronous `eth_getBalance` request issued by the
balance effect. -/
inductive FetchResult
  | ok (v : String)
  | failed
deriving DecidableEq, Repr

/-- JS truthiness of the `account` state in `if (account)`: a missing account
and an empty string are falsy. -/
def truthyAccount : Option String → Bool
  | some a => !(a == "")
  | none => false

/-- The balance effect (dependency: `account`): if an account is present and
the `debug` flag is set, request `eth_getBalance`; on success setBalance(result),
on failure only console.warn (state untouched).  If the account is absent,
setBalance(undefined) synchronously and no request is made.  The second
component records whether a fetch was attempted. -/
def balanceEffect (debug : Bool) (fetch : FetchResult) (s : SDKState) : SDKState × Bool :=
  if truthyAccount s.account then
    if debug then
      match fetch with
      | FetchResult.ok v => ({ s with balance := some v }, true)
      | FetchResult.failed => (s, true)
    else (s, false)
  else ({ s with balance := none }, false)

/-- The events the component subscribes to, on the active provider
(connecting, _initialized, connect, disconnect, accountsChanged,
chainChanged) and on the SDK object (service status, provider update);
`evResubscribe` is the listener-subscription effect re-running by itself
(for example on mount). -/
inductive SDKEvent
  | evConnecting
  | evInitialized (env : ProvEnv)
  | evConnect (p : ConnectParam)
  | evDisconnect (r : EthereumRpcError)
  | evAccountsChanged (accounts : Option (List String))
  | evChainChanged (v : ChainPayload)
  | evServiceStatus (st : ServiceStatus)
  | evProviderUpdate (t : PROVIDER_UPDATE_TYPE) (env : ProvEnv)
  | evResubscribe (env : ProvEnv)

/-- Dispatch an event to its handler (provider-update events include the
re-subscription they trigger). -/
def handleEvent : SDKEvent → SDKState → SDKState
  | SDKEvent.evConnecting, s => onConnecting s
  | SDKEvent.evInitialized env, s => onInitialized env s
  | SDKEvent.evConnect p, s => onConnect p s
  | SDKEvent.evDisconnect r, s => onDisconnect r s
  | SDKEvent.evAccountsChanged accounts, s => onAccountsChanged accounts s
  | SDKEvent.evChainChanged v, s => onChainChanged v s
  | SDKEvent.evServiceStatus st, s => onSDKStatusEvent st s
  | SDKEvent.evProviderUpdate t env, s => fullProviderUpdate t env s
  | SDKEvent.evResubscribe env, s => resubscribeEffect env s

/-- One full step of the component: the event handler runs, then (as React
does for an effect with dependency `[account]`) the balance effect runs
whenever the `account` value changed. -/
def fullStep (debug : Bool) (fetch : FetchResult) (e : SDKEvent) (s : SDKState) : SDKState :=
  let s1 := handleEvent e s
  if s1.account = s.account then s1 else (balanceEffect debug fetch s1).1

/-- Run a sequence of events, each paired with the outcome its balance fetch
would have. -/
def runTrace (debug : Bool) (tr : List (SDKEvent × FetchResult)) (s : SDKState) : SDKState :=
  tr.foldl (fun st ef => fullStep debug ef.2 ef.1 st) s

/-- State of the one-time init effect of `MetaMaskProviderClient`: the
`hasInit` ref plus counters for `new MetaMaskSDK(...)` constructions and
`init()` calls. -/
structure InitWorld where
  hasInit : Bool
  sdkConstructions : Nat
  initCalls : Nat
deriving DecidableEq, Repr

/-- The init effect: if `hasInit.current` is already set, return (no-op);
otherwise set the ref, construct the SDK once and call `init()` once. -/
def initEffect (w : InitWorld) : InitWorld :=
  if w.hasInit then w
  else { hasInit := true
         sdkConstructions := w.sdkConstructions + 1
         initCalls := w.initCalls + 1 }

/-- A freshly mounted component: ref unset, nothing constructed yet. -/
def freshMount : InitWorld :=
  { hasInit := false, sdkConstructions := 0, initCalls := 0 }

/-- What the outer `MetaMaskProvider` wrapper renders: either the bare
children, or the SDK-backed `MetaMaskProviderClient` subtree around them. -/
inductive Rendered (α : Type)
  | childrenOnly (children : α)
  | clientProvider (children : α)
deriving DecidableEq

/-- Initial value of the wrapper's `clientSide` hook. -/
def initialClientSide : Bool := false

/-- The wrapper's mount effect: setClientSide(true). -/
def clientSideEffect (_ : Bool) : Bool := true

/-- Render function of `MetaMaskProvider`: wrap the children in the client
provider only when `clientSide` is set, else render the children alone. -/
def metaMaskProviderRender {α : Type} (clientSide : Bool) (children : α) : Rendered α :=
  if clientSide then Rendered.clientProvider children else Rendered.childrenOnly children

/-- Display of the QR / mobile panel of `SelectModal`:
`display: tab === 1 ? 'none' : 'block'`. -/
def qrPanelVisible (tab : Nat) : Bool :=
  if tab = 1 then false else true

/-- Display of the extension panel of `SelectModal`:
`display: tab === 2 ? 'none' : 'block'`. -/
def extensionPanelVisible (tab : Nat) : Bool :=
  if tab = 2 then false else true

/-- The user interactions `SelectModal` wires up: the backdrop and the close
button (both `onClick=props.onClose`), the two tab selectors
(`onClick=setTab(1)` / `setTab(2)`), and the extension-connect button
(`onClick=props.connectWithExtension`). -/
inductive ModalEvent
  | clickBackdrop
  | clickCloseButton
  | clickTab1
  | clickTab2
  | clickConnectButton
deriving DecidableEq, Repr

/-- Observable state of a mounted `SelectModal`: its one `useState` hook
(`tab`) plus counters of how often each caller-supplied callback has been
invoked. -/
structure ModalMachine where
  tab : Nat
  onCloseCalls : Nat
  connectCalls : Nat
deriving DecidableEq, Repr

/-- A freshly mounted modal: `useState<number>(1)`, no callback invoked yet. -/
def modalInit : ModalMachine :=
  { tab := 1, onCloseCalls := 0, connectCalls := 0 }

/-- Effect of one click: the backdrop and close button each call
`props.onClose` exactly once and touch nothing else; the tab selectors set
`tab`; the connect button calls `props.connectWithExtension` once. -/
def modalStep : ModalEvent → ModalMachine → ModalMachine
  | ModalEvent.clickBackdrop, s => { s with onCloseCalls := s.onCloseCalls + 1 }
  | ModalEvent.clickCloseButton, s => { s with onCloseCalls := s.onCloseCalls + 1 }
  | ModalEvent.clickTab1, s => { s with tab := 1 }
  | ModalEvent.clickTab2, s => { s with tab := 2 }
  | ModalEvent.clickConnectButton, s => { s with connectCalls := s.connectCalls + 1 }

/-- Click target attached to a rendered element: either one of the
caller-supplied callback props, or the local `setTab` closure. -/
inductive ClickAction (H : Type)
  | fromProp (h : H)
  | localSetTab (n : Nat)
deriving DecidableEq

/-- The props of `SelectModal` (`SelectModalProps`): the `onClose` and
`connectWithExtension` callbacks and the `link` string. -/
structure SelectModalProps (H : Type) where
  onClose : H
  link : String
  connectWithExtension : H

/-- A rendered DOM fragment: an element with an optional id, optional click
handler, a display flag (block or none) and an active-style flag; sequencing
of siblings; text; or nothing. -/
inductive ViewNode (H : Type)
  | el (domId : Option String) (onClick : Option (ClickAction H))
      (displayBlock : Bool) (activeStyle : Bool) (child : ViewNode H)
  | seq (a b : ViewNode H)
  | text (s : String)
  | nil
deriving DecidableEq

/-- The render body of `SelectModal` at a given `tab` state: backdrop and
close button wired to `props.onClose`, the two tab selectors (active style
follows `tab`), the QR panel with the fixed `sdk-qrcode-container` mount
point (shown unless tab = 1), and the extension panel with the
connect-with-extension button (shown unless tab = 2). -/
def selectModalView {H : Type} (props : SelectModalProps H) (tab : Nat) : ViewNode H :=
  ViewNode.el none none true false (ViewNode.seq
    (ViewNode.el none (some (ClickAction.fromProp props.onClose)) true false ViewNode.nil)
    (ViewNode.el none none true false (ViewNode.seq
      (ViewNode.el none (some (ClickAction.fromProp props.onClose)) true false ViewNode.nil)
      (ViewNode.seq
        (ViewNode.el none none true false ViewNode.nil)
        (ViewNode.el none none true false (ViewNode.seq
          (ViewNode.seq
            (ViewNode.el none (some (ClickAction.localSetTab 1)) true (decide (tab = 1))
              (ViewNode.text "Desktop"))
            (ViewNode.el none (some (ClickAction.localSetTab 2)) true (decide (tab = 2))
              (ViewNode.text "Mobile")))
          (ViewNode.seq
            (ViewNode.el none none (qrPanelVisible tab) false (ViewNode.seq
              (ViewNode.el (some "sdk-qrcode-container") none true false ViewNode.nil)
              (ViewNode.text "Scan to connect and sign with MetaMask mobile app")))
            (ViewNode.el none none (extensionPanelVisible tab) false
              (ViewNode.el none (some (ClickAction.fromProp props.connectWithExtension))
                true false (ViewNode.text "Connect With MetaMask Extension"))))))))))

/-- Whether a rendered fragment contains an element with the given id. -/
def viewContainsId {H : Type} : ViewNode H → String → Bool
  | ViewNode.el (some i) _ _ _ c, target => (i == target) || viewContainsId c target
  | ViewNode.el none _ _ _ c, target => viewContainsId c target
  | ViewNode.seq a b, target => viewContainsId a target || viewContainsId b target
  | ViewNode.text _, _ => false
  | ViewNode.nil, _ => false

/-- Environment read while a provider-update of kind extension is processed.
Modelled from the spec: `sdk.isExtensionActive()` and the active provider's
`isConnected()` are implemented in this repository's sdk package, which is
not under src/.  Per the spec, after a provider-update of kind "extension"
the browser-extension transport is the active transport and the extension
connection is established, so the environment reports the extension active
and the provider connected. -/
def ExtensionUpdateEnv (env : ProvEnv) : Prop :=
  env.isExtensionActive = true ∧ env.isConnected = true

/-- Concrete extension-update environment used to instantiate theorems. -/
def envW : ProvEnv :=
  { selectedAddress := some "0xabc"
    chainId := some "0x1"
    isConnected := true
    isExtensionActive := true }

/-- Normalization of a chainChanged payload following the claim's words:
chainId becomes v.chainId whenever v is object-shaped, and the raw value v
otherwise. -/
def chainIdPerClaim (v : ChainPayload) : Option StoredChain :=
  match v with
  | ChainPayload.obj o => o.chainId.map StoredChain.str
  | ChainPayload.prim raw => some (StoredChain.str raw)

/-- Normalization of a chainChanged payload following the amended claim:
chainId becomes v.chainId when v is object-shaped with a present, non-empty
chainId field, and the raw value v otherwise (in particular an object-shaped
payload without a truthy chainId is stored raw). -/
def chainIdPerAmendedClaim (v : ChainPayload) : Option StoredChain :=
  match v with
  | ChainPayload.obj o =>
    match o.chainId with
    | some c => if c = "" then some (StoredChain.objVal o) else some (StoredChain.str c)
    | none => some (StoredChain.objVal o)
  | ChainPayload.prim raw => some (StoredChain.str raw)

/-- The balance effect never changes the account, connected, connecting or
error fields, whatever its branch. -/
theorem balanceEffect_preserves_core (debug : Bool) (fetch : FetchResult) (s : SDKState) :
    ((balanceEffect debug fetch s).1).account = s.account
    ∧ ((balanceEffect debug fetch s).1).connected = s.connected
    ∧ ((balanceEffect debug fetch s).1).connecting = s.connecting
    ∧ ((balanceEffect debug fetch s).1).error = s.error := by
  unfold balanceEffect
  cases h : truthyAccount s.account <;> cases debug <;> cases fetch <;> simp

/-- A full step publishes the same account, connected, connecting and error
values as the bare event handler: the trailing balance effect only touches
the balance. -/
theorem fullStep_core_fields (debug : Bool) (fetch : FetchResult) (e : SDKEvent) (s : SDKState) :
    (fullStep debug fetch e s).account = (handleEvent e s).account
    ∧ (fullStep debug fetch e s).connected = (handleEvent e s).connected
    ∧ (fullStep debug fetch e s).connecting = (handleEvent e s).connecting
    ∧ (fullStep debug fetch e s).error = (handleEvent e s).error := by
  unfold fullStep
  obtain ⟨h1, h2, h3, h4⟩ := balanceEffect_preserves_core debug fetch (handleEvent e s)
  by_cases hacc : (handleEvent e s).account = s.account
  · simp [hacc]
  · simp [hacc, h1, h2, h3, h4]

/-- No event handler writes the balance state: only the balance effect does. -/
theorem handleEvent_preserves_balance (e : SDKEvent) (s : SDKState) :
    (handleEvent e s).balance = s.balance := by
  cases e with
  | evConnecting => rfl
  | evInitialized env => rfl
  | evConnect p => rfl
  | evDisconnect r => rfl
  | evAccountsChanged accounts => rfl
  | evChainChanged v =>
    cases v with
    | prim raw => rfl
    | obj o =>
      simp only [handleEvent, onChainChanged]
      by_cases h : truthyChainField o.chainId = true <;> simp [h]
  | evServiceStatus st => rfl
  | evProviderUpdate t env => cases t <;> rfl
  | evResubscribe env => rfl

/-- With the debug flag off, a full step keeps an unset balance unset. -/
theorem fullStep_debug_off_balance (fetch : FetchResult) (e : SDKEvent) (s : SDKState)
    (h : s.balance = none) : (fullStep false fetch e s).balance = none := by
  unfold fullStep
  have hb : (handleEvent e s).balance = none := (handleEvent_preserves_balance e s).trans h
  by_cases hacc : (handleEvent e s).account = s.account
  · simp [hacc, hb]
  · simp only [hacc, if_neg]
    unfold balanceEffect
    cases ht : truthyAccount (handleEvent e s).account <;> simp [hb]

/-- C1: for every accountsChanged event carrying a list L, arriving after any
sequence of events, the published state immediately after the handler has
account equal to the head of L (the first entry of the most recently received
list, unset when L is empty), connected = true, connecting = false, and error
unset. -/
theorem accountsChanged_publishes_head (debug : Bool) (fetch : FetchResult)
    (tr : List (SDKEvent × FetchResult)) (L : List String) :
    (fullStep debug fetch (SDKEvent.evAccountsChanged (some L)) (runTrace debug tr initProps)).account
      = L.head?
    ∧ (fullStep debug fetch (SDKEvent.evAccountsChanged (some L)) (runTrace debug tr initProps)).connected
      = true
    ∧ (fullStep debug fetch (SDKEvent.evAccountsChanged (some L)) (runTrace debug tr initProps)).connecting
      = false
    ∧ (fullStep debug fetch (SDKEvent.evAccountsChanged (some L)) (runTrace debug tr initProps)).error
      = none := by
  obtain ⟨h1, h2, h3, h4⟩ :=
    fullStep_core_fields debug fetch (SDKEvent.evAccountsChanged (some L))
      (runTrace debug tr initProps)
  exact ⟨h1.trans rfl, h2.trans rfl, h3.trans rfl, h4.trans rfl⟩

/-- C2: after a provider-update of kind extension is fully processed (handler
plus the listener re-subscription it triggers), extensionActive is true,
account and chainId equal the active provider's current selectedAddress and
chainId (normalized with JS `or undefined`), connecting is false, connected
is true and error is cleared; a provider-update of kind terminate leaves
connecting false; both kinds bump the re-subscription trigger by one. -/
theorem providerUpdate_extension_full_processing (env : ProvEnv) (s : SDKState)
    (h : ExtensionUpdateEnv env) :
    (fullProviderUpdate PROVIDER_UPDATE_TYPE.EXTENSION env s).extensionActive = true
    ∧ (fullProviderUpdate PROVIDER_UPDATE_TYPE.EXTENSION env s).account
      = orUndefined env.selectedAddress
    ∧ (fullProviderUpdate PROVIDER_UPDATE_TYPE.EXTENSION env s).chainId
      = (orUndefined env.chainId).map StoredChain.str
    ∧ (fullProviderUpdate PROVIDER_UPDATE_TYPE.EXTENSION env s).connecting = false
    ∧ (fullProviderUpdate PROVIDER_UPDATE_TYPE.EXTENSION env s).connected = true
    ∧ (fullProviderUpdate PROVIDER_UPDATE_TYPE.EXTENSION env s).error = none
    ∧ (fullProviderUpdate PROVIDER_UPDATE_TYPE.EXTENSION env s).trigger = s.trigger + 1
    ∧ (fullProviderUpdate PROVIDER_UPDATE_TYPE.TERMINATE env s).connecting = false
    ∧ (fullProviderUpdate PROVIDER_UPDATE_TYPE.TERMINATE env s).trigger = s.trigger + 1 := by
  obtain ⟨hx, hc⟩ := h
  refine ⟨?_, rfl, rfl, rfl, ?_, rfl, rfl, rfl, rfl⟩
  · simpa [fullProviderUpdate, resubscribeEffect] using hx
  · simpa [fullProviderUpdate, resubscribeEffect] using hc

/-- Witness for C2 at a concrete extension environment and the initial state. -/
theorem providerUpdate_extension_full_processing_witness :
    ExtensionUpdateEnv envW
    ∧ (fullProviderUpdate PROVIDER_UPDATE_TYPE.EXTENSION envW initProps).extensionActive = true
    ∧ (fullProviderUpdate PROVIDER_UPDATE_TYPE.EXTENSION envW initProps).connected = true :=
  ⟨⟨rfl, rfl⟩,
   (providerUpdate_extension_full_processing envW initProps ⟨rfl, rfl⟩).1,
   (providerUpdate_extension_full_processing envW initProps ⟨rfl, rfl⟩).2.2.2.2.1⟩

/-- C3: a disconnect event with reason r sets connected = false,
connecting = false and error = r; from any state, each state-advancing event
(connect, accounts-changed, chain-changed, initialized) leaves error unset. -/
theorem disconnect_sets_error_next_event_clears (s : SDKState) (r : EthereumRpcError)
    (env : ProvEnv) (p : ConnectParam) (accounts : Option (List String)) (v : ChainPayload) :
    (onDisconnect r s).connected = false
    ∧ (onDisconnect r s).connecting = false
    ∧ (onDisconnect r s).error = some r
    ∧ (onConnect p s).error = none
    ∧ (onAccountsChanged accounts s).error = none
    ∧ (onChainChanged v s).error = none
    ∧ (onInitialized env s).error = none :=
  ⟨rfl, rfl, rfl, rfl, rfl, rfl, rfl⟩

/-- C4 counterexample: for the object-shaped payload without a chainId field,
the handler stores the raw object, not the (absent) chainId the claim's rule
prescribes. -/
theorem chainChanged_object_without_chainId_cex :
    (onChainChanged (ChainPayload.obj { chainId := none }) initProps).chainId
      ≠ chainIdPerClaim (ChainPayload.obj { chainId := none }) := by
  decide

/-- C4 amended: for every chainChanged payload v, the handler sets chainId to
v.chainId when v is object-shaped with a present non-empty chainId field and
to the raw value v otherwise, and additionally sets connected = true,
connecting = false, and clears error. -/
theorem chainChanged_normalization_amended (v : ChainPayload) (s : SDKState) :
    (onChainChanged v s).chainId = chainIdPerAmendedClaim v
    ∧ (onChainChanged v s).connected = true
    ∧ (onChainChanged v s).connecting = false
    ∧ (onChainChanged v s).error = none := by
  refine ⟨?_, rfl, rfl, rfl⟩
  cases v with
  | prim raw => rfl
  | obj o =>
    cases o with
    | mk cid =>
      cases cid with
      | none => rfl
      | some c =>
        simp only [onChainChanged, chainIdPerAmendedClaim, truthyChainField]
        by_cases hc : c = "" <;> simp [hc]

/-- C5 counterexample: at the initial tab (tab = 1, the Desktop tab) the QR
panel is hidden and the extension panel is shown, and after clicking the
second tab (Mobile) the QR panel is shown and the extension panel hidden —
the opposite of the claimed tab-to-content mapping. -/
theorem selectModal_tab_content_cex :
    qrPanelVisible modalInit.tab = false
    ∧ extensionPanelVisible modalInit.tab = true
    ∧ qrPanelVisible (modalStep ModalEvent.clickTab2 modalInit).tab = true
    ∧ extensionPanelVisible (modalStep ModalEvent.clickTab2 modalInit).tab = false := by
  decide

/-- C5 amended: the selected-tab state starts at 1 and changes only via
explicit clicks on the tab selectors (to 1 or 2), where tab 1 is the
desktop/extension tab and tab 2 is the mobile/QR tab; clicking the backdrop
or the close button invokes onClose exactly once per click and causes no
other state change. -/
theorem selectModal_tab_machine_amended :
    modalInit.tab = 1
    ∧ (∀ s : ModalMachine,
        (modalStep ModalEvent.clickTab1 s).tab = 1 ∧ (modalStep ModalEvent.clickTab2 s).tab = 2)
    ∧ (∀ s : ModalMachine,
        (modalStep ModalEvent.clickBackdrop s).tab = s.tab
        ∧ (modalStep ModalEvent.clickCloseButton s).tab = s.tab
        ∧ (modalStep ModalEvent.clickConnectButton s).tab = s.tab)
    ∧ (∀ s : ModalMachine,
        (modalStep ModalEvent.clickBackdrop s).onCloseCalls = s.onCloseCalls + 1
        ∧ (modalStep ModalEvent.clickCloseButton s).onCloseCalls = s.onCloseCalls + 1
        ∧ (modalStep ModalEvent.clickBackdrop s).connectCalls = s.connectCalls
        ∧ (modalStep ModalEvent.clickCloseButton s).connectCalls = s.connectCalls)
    ∧ extensionPanelVisible 1 = true ∧ qrPanelVisible 1 = false
    ∧ qrPanelVisible 2 = true ∧ extensionPanelVisible 2 = false := by
  refine ⟨rfl, ?_, ?_, ?_, rfl, rfl, rfl, rfl⟩
  · intro s; exact ⟨rfl, rfl⟩
  · intro s; exact ⟨rfl, rfl, rfl⟩
  · intro s; exact ⟨rfl, rfl, rfl, rfl⟩

/-- C6: running the init effect twice from a fresh mount constructs exactly
one SDK instance and calls init() exactly once, and a second run of the
effect is always a no-op. -/
theorem double_mount_single_init :
    (initEffect (initEffect freshMount)).sdkConstructions = 1
    ∧ (initEffect (initEffect freshMount)).initCalls = 1
    ∧ (∀ w : InitWorld, initEffect (initEffect w) = initEffect w) := by
  refine ⟨by decide, by decide, ?_⟩
  intro w
  cases h : w.hasInit <;> simp [initEffect, h]

/-- C7: with the debug flag disabled, the balance is never set: it stays
unset along every sequence of events (account changes included) from the
initial state. -/
theorem debug_off_balance_never_set (tr : List (SDKEvent × FetchResult)) :
    (runTrace false tr initProps).balance = none := by
  have key : ∀ (l : List (SDKEvent × FetchResult)) (s : SDKState),
      s.balance = none → (runTrace false l s).balance = none := by
    intro l
    induction l with
    | nil => intro s h; exact h
    | cons ef rest ih =>
      intro s h
      have hstep := fullStep_debug_off_balance ef.2 ef.1 s h
      simpa [runTrace] using ih _ hstep
  exact key tr initProps rfl

/-- C8: when the account is absent the balance effect clears balance
synchronously and attempts no fetch; a failed fetch for a present account is
swallowed, leaving the entire state (balance and error included) unchanged,
though a fetch was attempted. -/
theorem account_absent_clears_balance_fetch_failure_swallowed
    (debug : Bool) (fetch : FetchResult) (s : SDKState) (a : String) (ha : a ≠ "") :
    balanceEffect debug fetch { s with account := none }
      = ({ s with account := none, balance := none }, false)
    ∧ (balanceEffect true FetchResult.failed { s with account := some a }).1
      = { s with account := some a }
    ∧ (balanceEffect true FetchResult.failed { s with account := some a }).2 = true := by
  have ht : truthyAccount (some a) = true := by
    simp [truthyAccount, ha]
  refine ⟨rfl, ?_, ?_⟩ <;> simp [balanceEffect, ht]

/-- Witness for C8 at a concrete nonempty account and the initial state. -/
theorem account_absent_clears_balance_witness :
    ("0xabc" : String) ≠ ""
    ∧ (balanceEffect true FetchResult.failed { initProps with account := some "0xabc" }).1
      = { initProps with account := some "0xabc" } :=
  ⟨by decide,
   (account_absent_clears_balance_fetch_failure_swallowed true FetchResult.failed
      initProps "0xabc" (by decide)).2.1⟩

/-- C9: while the client execution context is not confirmed (the initial
clientSide state), the wrapper renders only its children unmodified; once the
mount effect confirms the client context, it renders the SDK-backed provider
subtree around the same children. -/
theorem provider_renders_children_until_client (α : Type) (c : α) :
    metaMaskProviderRender initialClientSide c = Rendered.childrenOnly c
    ∧ metaMaskProviderRender (clientSideEffect initialClientSide) c
      = Rendered.clientProvider c :=
  ⟨rfl, rfl⟩

/-- C10: the rendered output of the chooser widget is identical for any two
values of the link prop (the widget never reads it), and the output contains
the fixed sdk-qrcode-container mount point for the external QR renderer. -/
theorem selectModal_link_not_read (H : Type) (oc cwe : H) (l1 l2 : String) (tab : Nat) :
    selectModalView { onClose := oc, link := l1, connectWithExtension := cwe } tab
      = selectModalView { onClose := oc, link := l2, connectWithExtension := cwe } tab
    ∧ viewContainsId
        (selectModalView { onClose := oc, link := l1, connectWithExtension := cwe } tab)
        "sdk-qrcode-container" = true := by
  refine ⟨rfl, ?_⟩
  simp [selectModalView, viewContainsId]

end MetaMaskSDKReact
